import Mathlib

/-!
Verification of the finbro.browser control plane.

This file embeds, as pure Lean functions over explicit state records, the
control-plane components of the repository:

* `TabsManager` (src/src/main/tabs.ts) — the tab registry.  The file holds two
  revisions of the class; their tab-list/current-id/next-id logic is
  line-for-line identical, so those parts are embedded once.  The two
  revisions differ in how views are attached to the host window
  (`createTab`/`switchTo`); both attachment semantics are embedded
  (second revision: `createTab`/`switchTo`; first revision:
  `createTab1`/`switchTo1`).
* The WebSocket client (src/unnamed/part_018, the final revision of
  websocket-client.ts) — module-level mutable state (`ws`, `currentToken`,
  `reconnectTimeout`, `tabStates`) plus the overlay-state map of
  overlay-state.ts and the per-tab debugger-attachment flags, bundled into
  one state record `WsState`.
* `AgentBridge` (the agent-bridge.ts revision embedded at the end of
  src/src/main/tabs.ts).
* `executeTabCommand` — the tab-command dispatcher of part_018.

Machine integers of the source are JS numbers used as small non-negative
integers (ids, closure codes, counters); they are embedded as `Nat`, with the
current-tab id as `Int` because the source initialises it to `-1`.
-/

namespace Finbro

/-! ## Tab registry (TabsManager, src/src/main/tabs.ts) -/

/-- A tab record: `{ id, view, url, title? }`.  The opaque engine view handle
carries no decidable content; the window-attachment status of each view is
tracked in `TabsManager.attached` instead. -/
structure Tab where
  id : Nat
  url : String
  title : Option String := none
  deriving Repr, DecidableEq

/-- The `TabsManager` fields `tabs`, `currentTabId`, `nextId`, plus `attached`:
the ids of tabs whose `BrowserView` is currently added to the host window
(`window.addBrowserView` adds, `window.removeBrowserView` removes). -/
structure TabsManager where
  tabs : List Tab
  currentTabId : Int
  nextId : Nat
  attached : List Nat
  deriving Repr, DecidableEq

/-- A freshly constructed manager: `tabs = []`, `currentTabId = -1`,
`nextId = 0`, nothing attached. -/
def TabsManager.initial : TabsManager :=
  { tabs := [], currentTabId := -1, nextId := 0, attached := [] }

/-- `createTab(url)` of the second revision: allocates `id = nextId++`, pushes
the tab, loads the URL, and deliberately does NOT add the view to the window
("DON'T add to window yet - only the active tab should be visible").
Returns the updated manager and the new tab id. -/
def createTab (url : String) (s : TabsManager) : TabsManager × Nat :=
  let tab : Tab := { id := s.nextId, url := url }
  ({ s with tabs := s.tabs ++ [tab], nextId := s.nextId + 1 }, tab.id)

/-- `createTab(url)` of the first revision: identical bookkeeping, but the
view is added to the window immediately (`this.window.addBrowserView(view)`),
so the new tab id joins `attached`. -/
def createTab1 (url : String) (s : TabsManager) : TabsManager × Nat :=
  let tab : Tab := { id := s.nextId, url := url }
  ({ s with tabs := s.tabs ++ [tab], nextId := s.nextId + 1,
            attached := s.attached ++ [tab.id] }, tab.id)

/-- `switchTo(tabId)` of the second revision: if the tab is unknown, log and
return (silent no-op).  Otherwise remove every tab in the list from the
window, then add the selected view and set `currentTabId`. -/
def switchTo (tabId : Nat) (s : TabsManager) : TabsManager :=
  if s.tabs.any (fun t => t.id == tabId) then
    { s with
      attached :=
        (s.attached.filter (fun a => !(s.tabs.any (fun t => t.id == a)))) ++ [tabId],
      currentTabId := (tabId : Int) }
  else s

/-- `switchTo(tabId)` of the first revision: unknown tab is a silent no-op;
otherwise only `setTopBrowserView` (attachment unchanged) and set
`currentTabId`. -/
def switchTo1 (tabId : Nat) (s : TabsManager) : TabsManager :=
  if s.tabs.any (fun t => t.id == tabId) then
    { s with currentTabId := (tabId : Int) }
  else s

/-- `this.tabs.splice(index, 1)` after `findIndex(t => t.id === tabId)`:
remove the first tab whose id matches. -/
def removeFirstTab (tabId : Nat) : List Tab → List Tab
  | [] => []
  | t :: ts => if t.id == tabId then ts else t :: removeFirstTab tabId ts

/-- `closeTab(tabId)` (identical in both revisions up to the `switchTo`
called): unknown id logs and returns; otherwise the view is removed from the
window and destroyed, the record is spliced out, and if the closed tab was
current and tabs remain, the manager switches to `this.tabs[0]`. -/
def closeTab (tabId : Nat) (s : TabsManager) : TabsManager :=
  if s.tabs.any (fun t => t.id == tabId) then
    let tabs2 := removeFirstTab tabId s.tabs
    let s1 : TabsManager :=
      { s with tabs := tabs2, attached := s.attached.erase tabId }
    match tabs2 with
    | [] => s1
    | t :: _ => if s.currentTabId = (tabId : Int) then switchTo t.id s1 else s1
  else s

/-- `closeTab` with the first-revision `switchTo1`. -/
def closeTab1 (tabId : Nat) (s : TabsManager) : TabsManager :=
  if s.tabs.any (fun t => t.id == tabId) then
    let tabs2 := removeFirstTab tabId s.tabs
    let s1 : TabsManager :=
      { s with tabs := tabs2, attached := s.attached.erase tabId }
    match tabs2 with
    | [] => s1
    | t :: _ => if s.currentTabId = (tabId : Int) then switchTo1 t.id s1 else s1
  else s

/-- `getCurrentTabId()`. -/
def getCurrentTabId (s : TabsManager) : Int := s.currentTabId

/-- `destroy()`: removes and destroys every view, empties the list and resets
`currentTabId` to `-1`.  Note that the source does NOT reset `nextId`. -/
def destroy (s : TabsManager) : TabsManager :=
  { s with tabs := [], currentTabId := -1, attached := [] }

/-- `getTabInfo()` entry shape: `{ id, url, title }`. -/
structure TabInfo where
  id : Nat
  url : String
  title : Option String
  deriving Repr, DecidableEq

/-- `getTabInfo()`. -/
def getTabInfo (s : TabsManager) : List TabInfo :=
  s.tabs.map (fun t => { id := t.id, url := t.url, title := t.title })

/-- One registry operation, as issued by callers of the manager. -/
inductive TabOp where
  | newTab (url : String)
  | switchTab (tabId : Nat)
  | close (tabId : Nat)
  | destroyAll
  deriving Repr, DecidableEq

/-- Apply one operation under the second-revision semantics. -/
def applyOp (s : TabsManager) : TabOp → TabsManager
  | .newTab u => (createTab u s).1
  | .switchTab t => switchTo t s
  | .close t => closeTab t s
  | .destroyAll => destroy s

/-- Apply one operation under the first-revision semantics. -/
def applyOp1 (s : TabsManager) : TabOp → TabsManager
  | .newTab u => (createTab1 u s).1
  | .switchTab t => switchTo1 t s
  | .close t => closeTab1 t s
  | .destroyAll => destroy s

/-- Run a sequence of operations from a fresh manager (second revision). -/
def run (ops : List TabOp) : TabsManager :=
  ops.foldl applyOp TabsManager.initial

/-- Run a sequence of operations from a fresh manager (first revision). -/
def run1 (ops : List TabOp) : TabsManager :=
  ops.foldl applyOp1 TabsManager.initial

/-- Apply one operation while logging the id returned by each `createTab`. -/
def applyOpLog (p : TabsManager × List Nat) (op : TabOp) : TabsManager × List Nat :=
  match op with
  | .newTab u => ((createTab u p.1).1, p.2 ++ [(createTab u p.1).2])
  | _ => (applyOp p.1 op, p.2)

/-- Run a sequence of operations, collecting the ids returned by `createTab`
in call order. -/
def runLog (ops : List TabOp) : TabsManager × List Nat :=
  ops.foldl applyOpLog (TabsManager.initial, [])

/-- Structural invariant of reachable registry states: the tab list is
strictly sorted by id (tabs are only ever appended with a fresh maximal id
and spliced out), every id is below `nextId`, at most one view is attached
(second revision), and every attached id belongs to a live tab. -/
def Inv (s : TabsManager) : Prop :=
  List.Pairwise (fun a b => a.id < b.id) s.tabs
  ∧ (∀ t ∈ s.tabs, t.id < s.nextId)
  ∧ s.attached.length ≤ 1
  ∧ (∀ a ∈ s.attached, ∃ t ∈ s.tabs, t.id = a)

/-- Invariant carried while logging created ids: the log is strictly
increasing and every logged id is below the allocator `nextId`. -/
def LogInv (p : TabsManager × List Nat) : Prop :=
  List.Pairwise (· < ·) p.2 ∧ ∀ i ∈ p.2, i < p.1.nextId

/-! ## Association-list helpers for the `Map`-typed module state -/

/-- `Map.set(k, v)` on an association list with unique keys. -/
def mapSet (k : Nat) (v : α) : List (Nat × α) → List (Nat × α)
  | [] => [(k, v)]
  | (k2, v2) :: rest =>
    if k2 = k then (k, v) :: rest else (k2, v2) :: mapSet k v rest

/-- `Map.delete(k)`. -/
def mapDelete (k : Nat) (l : List (Nat × α)) : List (Nat × α) :=
  l.filter (fun p => p.1 != k)

/-- `Map.get(k)` / `Map.has(k)` via `Option`. -/
def mapGet (k : Nat) (l : List (Nat × α)) : Option α :=
  (l.find? (fun p => p.1 == k)).map (fun p => p.2)

/-! ## WebSocket client (src/unnamed/part_018) and overlay state -/

/-- The `ws` library readyState constants. -/
inductive ReadyState where
  | CONNECTING
  | OPEN
  | CLOSING
  | CLOSED
  deriving Repr, DecidableEq

/-- `type TabState = 'in_progress' | 'success' | 'failed'`. -/
inductive TabState where
  | in_progress
  | success
  | failed
  deriving Repr, DecidableEq

/-- `OverlayState` of overlay-state.ts: `{ type, visible, message? }`. -/
structure OverlayState where
  type : Option String
  visible : Bool
  message : Option String
  deriving Repr, DecidableEq

/-- `const NORMAL_CLOSURE = 1000`. -/
def NORMAL_CLOSURE : Nat := 1000

/-- Module-level state of websocket-client.ts (part_018) together with the
`overlayStates` map of overlay-state.ts and the per-tab
`webContents.debugger` attachment flags set by `executeCdpCommand`:
`ws = none` embeds `ws === null`, otherwise the socket readyState;
`reconnectPending` is whether a reconnect timer is pending
(`reconnectTimeout !== null`).  Two ghost observation fields record effects
the source performs on the outside world: `socketsCreated` counts
`new WebSocket(...)` constructions and `closedWith` the code of the last
`ws.close(code, ...)` call. -/
structure WsState where
  ws : Option ReadyState
  currentToken : Option String
  reconnectPending : Bool
  tabStates : List (Nat × TabState)
  overlayStates : List (Nat × OverlayState)
  attachedDebuggers : List Nat
  socketsCreated : Nat
  closedWith : Option Nat
  deriving Repr, DecidableEq

/-- State at module load. -/
def WsState.initial : WsState :=
  { ws := none, currentToken := none, reconnectPending := false,
    tabStates := [], overlayStates := [], attachedDebuggers := [],
    socketsCreated := 0, closedWith := none }

/-- `connectWebSocket(token)` of part_018: the guard returns early only when
`ws && ws.readyState === WebSocket.OPEN`; otherwise it stores the token and
constructs a new socket (initial readyState `CONNECTING`). -/
def connectWebSocket (token : String) (s : WsState) : WsState :=
  if s.ws = some ReadyState.OPEN then s
  else
    { s with currentToken := some token, ws := some ReadyState.CONNECTING,
             socketsCreated := s.socketsCreated + 1 }

/-- The socket reaches the open state; the `ws.on('open')` handler only sends
the registration frame (a wire effect, no module state change). -/
def wsOnOpen (s : WsState) : WsState :=
  { s with ws := some ReadyState.OPEN }

/-- The `ws.on('close', (code, reason))` handler of part_018: the library has
moved the socket to `CLOSED`; the handler schedules a reconnect timer iff a
token is set and the code differs from `NORMAL_CLOSURE` (1000).  No other
code is special-cased. -/
def wsOnClose (code : Nat) (s : WsState) : WsState :=
  let s1 := { s with ws := some ReadyState.CLOSED }
  if s1.currentToken.isSome ∧ code ≠ NORMAL_CLOSURE then
    { s1 with reconnectPending := true }
  else s1

/-- `{ type: null, visible: false }`, the default used by
`updateOverlayState` when no entry exists. -/
def defaultOverlay : OverlayState := { type := none, visible := false, message := none }

/-- `handleAnimationMessage` of part_018, after its guards (`action` and
`tab_id` present, TabsManager available).  Each branch updates `tabStates`
and merges a partial record into the overlay map via `updateOverlayState`;
the merges are written out per call site: the `in_progress` and
`success`/`failed` patches mention all three keys (an explicit
`message: undefined` clears the field on spread), the `update` patch only
`message`.  `showOverlay`/`hideOverlay` act on the overlay view, not on the
modelled state. -/
def handleAnimationMessage (action : String) (tab_id : Nat) (message : Option String)
    (s : WsState) : WsState :=
  if action = "in_progress" then
    { s with tabStates := mapSet tab_id TabState.in_progress s.tabStates,
             overlayStates :=
               mapSet tab_id
                 { type := some "purple_glow", visible := true, message := message }
                 s.overlayStates }
  else if action = "update" then
    let cur := (mapGet tab_id s.overlayStates).getD defaultOverlay
    { s with overlayStates := mapSet tab_id { cur with message := message } s.overlayStates }
  else if action = "success" then
    { s with tabStates := mapSet tab_id TabState.success s.tabStates,
             overlayStates :=
               mapSet tab_id { type := none, visible := false, message := none }
                 s.overlayStates }
  else if action = "failed" then
    { s with tabStates := mapSet tab_id TabState.failed s.tabStates,
             overlayStates :=
               mapSet tab_id { type := none, visible := false, message := none }
                 s.overlayStates }
  else s

/-- `onTabClosed(tabId)` of part_018: if `tabStates.has(tabId)`, delete the
entry and `deleteOverlayState(tabId)`; otherwise do nothing. -/
def onTabClosed (tabId : Nat) (s : WsState) : WsState :=
  if (mapGet tabId s.tabStates).isSome then
    { s with tabStates := mapDelete tabId s.tabStates,
             overlayStates := mapDelete tabId s.overlayStates }
  else s

/-- `disconnectWebSocket()` of part_018: always clears a pending reconnect
timer; if `ws === null` it returns; otherwise it hides the overlays of the
tabs in `tabStates` (overlay-view visibility, not modelled state), clears
`tabStates`, nulls the token, calls `ws.close(NORMAL_CLOSURE, ...)` and
nulls `ws`.  Nothing in the function touches debugger attachments or the
overlay-state map. -/
def disconnectWebSocket (s : WsState) : WsState :=
  let s1 := { s with reconnectPending := false }
  match s1.ws with
  | none => s1
  | some _ =>
    { s1 with tabStates := [], currentToken := none, ws := none,
              closedWith := some NORMAL_CLOSURE }

/-- The debugger-attachment effect of `executeCdpCommand` (part_018): when the
tab exists and `webContents.debugger.isAttached()` is false, attach
(`debugger.attach('1.3')`). -/
def executeCdpAttach (tab_id : Nat) (reg : TabsManager) (s : WsState) : WsState :=
  if reg.tabs.any (fun t => t.id == tab_id) then
    if tab_id ∈ s.attachedDebuggers then s
    else { s with attachedDebuggers := s.attachedDebuggers ++ [tab_id] }
  else s

/-- `getStatus(tabId)` of the automation-status store: the entry of
`tabStates` for the tab, if any. -/
def getStatus (tabId : Nat) (s : WsState) : Option TabState :=
  mapGet tabId s.tabStates

/-! ## Agent bridge (agent-bridge.ts revision at the end of src/src/main/tabs.ts) -/

/-- `type ConnectionState = 'disconnected' | 'connecting' | 'connected' | 'error'`. -/
inductive ConnectionState where
  | disconnected
  | connecting
  | connected
  | error
  deriving Repr, DecidableEq

/-- `AgentBridge` instance fields relevant to connection management.
`wsSome` embeds `this.ws !== null`; `socketsCreated` is a ghost counter of
`new WebSocket(...)` constructions. -/
structure AgentBridge where
  wsSome : Bool
  state : ConnectionState
  reconnectTimer : Bool
  reconnectAttempts : Nat
  autoReconnect : Bool
  socketsCreated : Nat
  deriving Repr, DecidableEq

/-- `private maxReconnectAttempts: number = 10`. -/
def maxReconnectAttempts : Nat := 10

/-- `scheduleReconnect()`: no-op unless auto-reconnect is on, attempts remain
and no timer is already pending; otherwise bump the attempt count and set
the timer. -/
def scheduleReconnect (b : AgentBridge) : AgentBridge :=
  if !b.autoReconnect then b
  else if maxReconnectAttempts ≤ b.reconnectAttempts then b
  else if b.reconnectTimer then b
  else { b with reconnectAttempts := b.reconnectAttempts + 1, reconnectTimer := true }

/-- `AgentBridge.connect()`: a no-op while already `connected` or
`connecting`; otherwise enters `connecting` and constructs a new socket. -/
def AgentBridge.connect (b : AgentBridge) : AgentBridge :=
  if b.state = ConnectionState.connected ∨ b.state = ConnectionState.connecting then b
  else
    { b with state := ConnectionState.connecting, wsSome := true,
             socketsCreated := b.socketsCreated + 1 }

/-- `AgentBridge.onClose(code)`: null the socket, enter `disconnected`; on
code 4001 (auth failure) return without reconnecting, otherwise
`scheduleReconnect()`. -/
def AgentBridge.onClose (code : Nat) (b : AgentBridge) : AgentBridge :=
  let b1 := { b with wsSome := false, state := ConnectionState.disconnected }
  if code = 4001 then b1 else scheduleReconnect b1

/-- `AgentBridge.disconnect()`: clear the reconnect timer, close and null the
socket, enter `disconnected`. -/
def AgentBridge.disconnect (b : AgentBridge) : AgentBridge :=
  { b with reconnectTimer := false, wsSome := false,
           state := ConnectionState.disconnected }

/-! ## Tab-command dispatcher (executeTabCommand of part_018) -/

/-- The untyped `params` object of a wire command, with the fields the tab
commands read.  An absent `params` object behaves exactly like one with all
fields absent (`params?.x === undefined`), so it is embedded as the
all-`none` record. -/
structure Params where
  url : Option String := none
  focus : Option Bool := none
  tab_id : Option Nat := none
  deriving Repr, DecidableEq

/-- The `result` payloads produced by `executeTabCommand`. -/
inductive ResultData where
  | emptyObj
  | newTabResult (tabId : Nat)
  | allTabs (tabs : List TabInfo) (current_tab_id : Int)
  deriving Repr, DecidableEq

/-- A correlated wire response: `{ id, result }` or `{ id, error }` as passed
to `sendResult` / `sendError`. -/
inductive Response where
  | ok (id : String) (data : ResultData)
  | err (id : String) (msg : String)
  deriving Repr, DecidableEq

/-- `executeTabCommand(id, action, params)` of part_018, with the TabsManager
available (the `!tabsManager` guard sends an init error otherwise).  Returns
the updated registry and the response handed to `sendResult`/`sendError`.
Note the `newTab` guard is `!params?.url`, which is also true for the empty
string (a falsy value in JS); the `tab_id` guards are strict
`=== undefined` checks.  `switchTo`, `closeTab` and `createTab` never throw,
so the surrounding try/catch contributes no branch. -/
def executeTabCommand (id : String) (action : String) (params : Params)
    (reg : TabsManager) : TabsManager × Option Response :=
  if action = "newTab" then
    match params.url with
    | none => (reg, some (Response.err id "Missing required parameter: url"))
    | some u =>
      if u = "" then (reg, some (Response.err id "Missing required parameter: url"))
      else
        let p := createTab u reg
        let reg2 := if params.focus ≠ some false then switchTo p.2 p.1 else p.1
        (reg2, some (Response.ok id (ResultData.newTabResult p.2)))
  else if action = "switchTab" then
    match params.tab_id with
    | none => (reg, some (Response.err id "Missing required parameter: tab_id"))
    | some t => (switchTo t reg, some (Response.ok id ResultData.emptyObj))
  else if action = "closeTab" then
    match params.tab_id with
    | none => (reg, some (Response.err id "Missing required parameter: tab_id"))
    | some t => (closeTab t reg, some (Response.ok id ResultData.emptyObj))
  else if action = "getAllTabs" then
    (reg, some (Response.ok id (ResultData.allTabs (getTabInfo reg) reg.currentTabId)))
  else
    (reg, some (Response.err id ("Unknown tab action: " ++ action)))

/-! ## Spec-modelled tab-close wiring -/

/-- Combined main-process state: the registry and the websocket-client
module state. -/
structure AppState where
  reg : TabsManager
  wsc : WsState
  deriving Repr, DecidableEq

/-- Modelled from the spec: the invocation of `onTabClosed` from tab-close
handling is missing from src — `onTabClosed` is exported by part_018
("Called when a tab is closed to clean up its state") but its caller, the
final TabsManager revision with overlay support (`showOverlay`/`hideOverlay`,
`overlayView`, referenced by part_018 and overlay-state.ts), is absent from
the dump.  Per the spec, "a tab closing while it has a status entry must
trigger clear(tabId) as part of tab-close handling", so tab-close handling
is the registry `closeTab` followed by `onTabClosed` on the same id. -/
def closeTabWired (tabId : Nat) (a : AppState) : AppState :=
  { reg := closeTab tabId a.reg, wsc := onTabClosed tabId a.wsc }

/-! ## Helper lemmas -/

theorem mapGet_mapDelete (k : Nat) (l : List (Nat × α)) :
    mapGet k (mapDelete k l) = none := by
  induction l with
  | nil => rfl
  | cons p rest ih =>
    by_cases h : p.1 = k
    · have hd : mapDelete k (p :: rest) = mapDelete k rest := by
        simp [mapDelete, List.filter_cons, h]
      rw [hd]
      exact ih
    · have hd : mapDelete k (p :: rest) = p :: mapDelete k rest := by
        simp [mapDelete, List.filter_cons, h]
      rw [hd]
      simpa [mapGet, List.find?_cons, h] using ih

theorem switchTo_not_found {s : TabsManager} {t : Nat}
    (h : ∀ tb ∈ s.tabs, tb.id ≠ t) : switchTo t s = s := by
  unfold switchTo
  rw [if_neg]
  intro hc
  rw [List.any_eq_true] at hc
  obtain ⟨tb, hm, he⟩ := hc
  exact h tb hm (by simpa using he)

theorem switchTo_tabs (t : Nat) (s : TabsManager) : (switchTo t s).tabs = s.tabs := by
  unfold switchTo
  split <;> rfl

theorem switchTo_nextId (t : Nat) (s : TabsManager) :
    (switchTo t s).nextId = s.nextId := by
  unfold switchTo
  split <;> rfl

theorem closeTab_nextId (t : Nat) (s : TabsManager) :
    (closeTab t s).nextId = s.nextId := by
  unfold closeTab
  split
  · cases hm : removeFirstTab t s.tabs with
    | nil => simp only [hm]
    | cons hd tl =>
      simp only [hm]
      split
      · rw [switchTo_nextId]
      · rfl
  · rfl

theorem applyOp_nextId_mono (s : TabsManager) (op : TabOp) :
    s.nextId ≤ (applyOp s op).nextId := by
  cases op with
  | newTab u => exact Nat.le_succ _
  | switchTab t => exact le_of_eq (switchTo_nextId t s).symm
  | close t => exact le_of_eq (closeTab_nextId t s).symm
  | destroyAll => exact le_rfl

theorem removeFirstTab_sublist (x : Nat) (l : List Tab) :
    List.Sublist (removeFirstTab x l) l := by
  induction l with
  | nil => exact List.Sublist.refl []
  | cons t ts ih =>
    unfold removeFirstTab
    by_cases h : t.id = x
    · simp only [h, beq_self_eq_true, if_true]
      exact List.sublist_cons_self t ts
    · simp only [beq_iff_eq, h, if_false]
      exact ih.cons₂ t

theorem mem_removeFirstTab {x : Nat} {l : List Tab} {t : Tab}
    (ht : t ∈ l) (hne : t.id ≠ x) : t ∈ removeFirstTab x l := by
  induction l with
  | nil => cases ht
  | cons hd tl ih =>
    unfold removeFirstTab
    by_cases h : hd.id = x
    · simp only [h, beq_self_eq_true, if_true]
      rcases List.mem_cons.mp ht with rfl | hmem
      · exact absurd h hne
      · exact hmem
    · simp only [beq_iff_eq, h, if_false]
      rcases List.mem_cons.mp ht with rfl | hmem
      · exact List.mem_cons_self _ _
      · exact List.mem_cons_of_mem _ (ih hmem)

theorem inv_initial : Inv TabsManager.initial := by
  refine ⟨?_, ?_, ?_, ?_⟩ <;> simp [Inv, TabsManager.initial]

theorem inv_createTab (u : String) (s : TabsManager) (h : Inv s) :
    Inv (createTab u s).1 := by
  obtain ⟨h1, h2, h3, h4⟩ := h
  refine ⟨?_, ?_, h3, ?_⟩
  · simp only [createTab]
    rw [List.pairwise_append]
    refine ⟨h1, List.pairwise_singleton _ _, ?_⟩
    intro a ha b hb
    rw [List.mem_singleton] at hb
    rw [hb]
    exact h2 a ha
  · intro t ht
    simp only [createTab, List.mem_append, List.mem_singleton] at ht
    rcases ht with ht | rfl
    · exact Nat.lt_succ_of_lt (h2 t ht)
    · exact Nat.lt_succ_self _
  · intro a ha
    simp only [createTab] at ha ⊢
    obtain ⟨t, ht, hid⟩ := h4 a ha
    exact ⟨t, List.mem_append_left _ ht, hid⟩

theorem inv_switchTo (t : Nat) (s : TabsManager) (h : Inv s) :
    Inv (switchTo t s) := by
  obtain ⟨h1, h2, h3, h4⟩ := h
  unfold switchTo
  split
  · rename_i hfound
    have hfilter :
        s.attached.filter (fun a => !(s.tabs.any fun tb => tb.id == a)) = [] := by
      rw [List.filter_eq_nil_iff]
      intro a ha
      obtain ⟨tb, htb, hid⟩ := h4 a ha
      simp only [Bool.not_eq_true', Bool.not_eq_false, List.any_eq_true, beq_iff_eq]
      exact ⟨tb, htb, hid⟩
    refine ⟨h1, h2, ?_, ?_⟩
    · simp [hfilter]
    · intro a ha
      simp only [hfilter, List.nil_append, List.mem_singleton] at ha
      subst ha
      rw [List.any_eq_true] at hfound
      obtain ⟨tb, htb, hid⟩ := hfound
      exact ⟨tb, htb, by simpa using hid⟩
  · exact ⟨h1, h2, h3, h4⟩

theorem inv_closeTab (x : Nat) (s : TabsManager) (h : Inv s) :
    Inv (closeTab x s) := by
  obtain ⟨h1, h2, h3, h4⟩ := h
  unfold closeTab
  split
  · have hsub := removeFirstTab_sublist x s.tabs
    have h1' : List.Pairwise (fun a b => a.id < b.id) (removeFirstTab x s.tabs) :=
      h1.sublist hsub
    have h2' : ∀ t ∈ removeFirstTab x s.tabs, t.id < s.nextId :=
      fun t ht => h2 t (hsub.subset ht)
    have h3' : (s.attached.erase x).length ≤ 1 :=
      le_trans (List.erase_sublist x s.attached).length_le h3
    have h4' : ∀ a ∈ s.attached.erase x,
        ∃ t ∈ removeFirstTab x s.tabs, t.id = a := by
      intro a ha
      cases hAtt : s.attached with
      | nil => rw [hAtt] at ha; cases ha
      | cons b rest =>
        have hrest : rest = [] := by
          cases rest with
          | nil => rfl
          | cons c cs => rw [hAtt] at h3; simp at h3
        subst hrest
        rw [hAtt] at ha
        by_cases hbx : b = x
        · rw [hbx] at ha; simp [List.erase_cons] at ha
        · simp only [List.erase_cons, beq_iff_eq, hbx, if_false,
            List.erase_nil, List.mem_singleton] at ha
          subst ha
          obtain ⟨tb, htb, hid⟩ := h4 a (by rw [hAtt]; exact List.mem_cons_self _ _)
          exact ⟨tb, mem_removeFirstTab htb (by rw [hid]; exact hbx), hid⟩
    have hInv1 : Inv { s with tabs := removeFirstTab x s.tabs,
                              attached := s.attached.erase x } :=
      ⟨h1', h2', h3', h4'⟩
    cases hm : removeFirstTab x s.tabs with
    | nil =>
      rw [hm] at hInv1
      simp only [hm]
      exact hInv1
    | cons hd tl =>
      rw [hm] at hInv1
      simp only [hm]
      split
      · exact inv_switchTo _ _ hInv1
      · exact hInv1
  · exact ⟨h1, h2, h3, h4⟩

theorem inv_destroy (s : TabsManager) : Inv (destroy s) := by
  refine ⟨?_, ?_, ?_, ?_⟩ <;> simp [Inv, destroy]

theorem inv_applyOp (s : TabsManager) (op : TabOp) (h : Inv s) :
    Inv (applyOp s op) := by
  cases op with
  | newTab u => exact inv_createTab u s h
  | switchTab t => exact inv_switchTo t s h
  | close t => exact inv_closeTab t s h
  | destroyAll => exact inv_destroy s

theorem inv_foldl (ops : List TabOp) :
    ∀ s : TabsManager, Inv s → Inv (ops.foldl applyOp s) := by
  induction ops with
  | nil => intro s h; exact h
  | cons op rest ih => intro s h; exact ih _ (inv_applyOp s op h)

theorem inv_run (ops : List TabOp) : Inv (run ops) :=
  inv_foldl ops TabsManager.initial inv_initial

theorem logInv_applyOpLog (p : TabsManager × List Nat) (op : TabOp)
    (h : LogInv p) : LogInv (applyOpLog p op) := by
  obtain ⟨h1, h2⟩ := h
  cases op with
  | newTab u =>
    constructor
    · simp only [applyOpLog]
      rw [List.pairwise_append]
      refine ⟨h1, List.pairwise_singleton _ _, ?_⟩
      intro a ha b hb
      rw [List.mem_singleton] at hb
      subst hb
      exact h2 a ha
    · intro i hi
      simp only [applyOpLog, createTab, List.mem_append, List.mem_singleton] at hi ⊢
      rcases hi with hi | rfl
      · exact Nat.lt_succ_of_lt (h2 i hi)
      · exact Nat.lt_succ_self _
  | switchTab t =>
    exact ⟨h1, fun i hi =>
      lt_of_lt_of_le (h2 i hi) (applyOp_nextId_mono p.1 (TabOp.switchTab t))⟩
  | close t =>
    exact ⟨h1, fun i hi =>
      lt_of_lt_of_le (h2 i hi) (applyOp_nextId_mono p.1 (TabOp.close t))⟩
  | destroyAll =>
    exact ⟨h1, fun i hi =>
      lt_of_lt_of_le (h2 i hi) (applyOp_nextId_mono p.1 TabOp.destroyAll)⟩

theorem logInv_foldl (ops : List TabOp) :
    ∀ p, LogInv p → LogInv (ops.foldl applyOpLog p) := by
  induction ops with
  | nil => intro p h; exact h
  | cons op rest ih => intro p h; exact ih _ (logInv_applyOpLog p op h)

theorem foldl_min_eq (a : Nat) (l : List Nat) (h : ∀ b ∈ l, a ≤ b) :
    l.foldl min a = a := by
  induction l generalizing a with
  | nil => rfl
  | cons b bs ih =>
    rw [List.foldl_cons, min_eq_left (h b (List.mem_cons_self _ _))]
    exact ih a (fun c hc => h c (List.mem_cons_of_mem _ hc))

theorem min?_cons_eq_head (a : Nat) (l : List Nat) (h : ∀ b ∈ l, a ≤ b) :
    (a :: l).min? = some a := by
  simp only [List.min?]
  rw [foldl_min_eq a l h]

theorem switchTo_after_createTab (s : TabsManager) (u : String) (h : Inv s) :
    (switchTo (createTab u s).2 (createTab u s).1).currentTabId
      = ((createTab u s).2 : Int)
    ∧ (switchTo (createTab u s).2 (createTab u s).1).attached
      = [(createTab u s).2] := by
  obtain ⟨h1, h2, h3, h4⟩ := h
  have hfound : ((createTab u s).1.tabs.any
      fun t => t.id == (createTab u s).2) = true := by
    simp [createTab]
  have hfilter : (createTab u s).1.attached.filter
      (fun a => !((createTab u s).1.tabs.any fun tb => tb.id == a)) = [] := by
    rw [List.filter_eq_nil_iff]
    intro a ha
    simp only [createTab] at ha ⊢
    obtain ⟨tb, htb, hid⟩ := h4 a ha
    simp only [Bool.not_eq_true', Bool.not_eq_false, List.any_eq_true, beq_iff_eq]
    exact ⟨tb, List.mem_append_left _ htb, hid⟩
  unfold switchTo
  rw [if_pos hfound]
  constructor
  · rfl
  · simp [hfilter]

/-! ## Claim theorems -/

/-- Claim C1, counterexample: in the websocket client of part_018, a socket
closing with the authentication-rejection code 4001 while a credential is
set DOES schedule a reconnect timer — the close handler special-cases only
`NORMAL_CLOSURE` (1000), so the claim that no reconnect is ever scheduled on
4001 is false for this connection implementation. -/
theorem c1_counterexample :
    (wsOnClose 4001
      { ws := some ReadyState.OPEN, currentToken := some "tok",
        reconnectPending := false, tabStates := [], overlayStates := [],
        attachedDebuggers := [], socketsCreated := 1,
        closedWith := none }).reconnectPending = true := by
  rfl

/-- Claim C1, amended: the `AgentBridge` connection never schedules a
reconnect on closure code 4001 (no timer is created, the attempt counter is
untouched, the state becomes `disconnected`); the websocket client of
part_018 schedules a reconnect exactly when a credential is set and the
closure code differs from 1000 — in particular it reconnects on 4001. -/
theorem c1_amended (b : AgentBridge) (s : WsState) (code : Nat) :
    ((AgentBridge.onClose 4001 b).reconnectTimer = b.reconnectTimer
      ∧ (AgentBridge.onClose 4001 b).reconnectAttempts = b.reconnectAttempts
      ∧ (AgentBridge.onClose 4001 b).state = ConnectionState.disconnected)
    ∧ (wsOnClose code s).reconnectPending
        = (if s.currentToken.isSome ∧ code ≠ NORMAL_CLOSURE then true
           else s.reconnectPending) := by
  refine ⟨⟨?_, ?_, ?_⟩, ?_⟩
  · simp [AgentBridge.onClose]
  · simp [AgentBridge.onClose]
  · simp [AgentBridge.onClose]
  · unfold wsOnClose
    by_cases hct : s.currentToken.isSome = true <;>
      by_cases hcode : code = NORMAL_CLOSURE <;>
        simp [hct, hcode]

/-- Claim C2, counterexample: a `switchTab` command for the unknown tab id
999 on an empty registry is answered with the success response
`{id, result: {}}` — `switchTo` fails silently and `executeTabCommand`
unconditionally calls `sendResult` afterwards — not with an `{id, error}`
response containing the id, so the claim is false. -/
theorem c2_counterexample :
    executeTabCommand "a1" "switchTab" { tab_id := some 999 } TabsManager.initial
      = (TabsManager.initial, some (Response.ok "a1" ResultData.emptyObj)) := by
  rfl

/-- Claim C2, amended: dispatching `switchTab` for a tab id absent from the
registry leaves the registry unchanged and produces the success response
`{id, result: {}}`; it never produces an error response and never produces
no response at all. -/
theorem c2_amended (s : TabsManager) (id : String) (t : Nat)
    (h : ∀ tb ∈ s.tabs, tb.id ≠ t) :
    executeTabCommand id "switchTab" { tab_id := some t } s
      = (s, some (Response.ok id ResultData.emptyObj)) := by
  have hs : switchTo t s = s := switchTo_not_found h
  simp [executeTabCommand, hs]

/-- Witness for C2 amended, at the spec test input: id "a1", tab id 999,
empty registry. -/
theorem c2_witness :
    executeTabCommand "a1" "switchTab" { tab_id := some 999 } TabsManager.initial
      = (TabsManager.initial, some (Response.ok "a1" ResultData.emptyObj)) :=
  c2_amended TabsManager.initial "a1" 999 (by simp [TabsManager.initial])

/-- Claim C3, counterexample: a per-tab debugging session attached by a cdp
command (tab 5) is still attached after `disconnectWebSocket` — the function
clears the timer, the statuses and the socket but contains no debugger
detach, so part (c) of the claim is false. -/
theorem c3_counterexample :
    (disconnectWebSocket
      (executeCdpAttach 5
        { tabs := [{ id := 5, url := "https://example.com", title := none }],
          currentTabId := 5, nextId := 6, attached := [5] }
        { ws := some ReadyState.OPEN, currentToken := some "tok",
          reconnectPending := false, tabStates := [(5, TabState.in_progress)],
          overlayStates := [], attachedDebuggers := [], socketsCreated := 1,
          closedWith := none })).attachedDebuggers = [5] := by
  rfl

/-- Claim C3, amended: for every state with an active connection, explicit
disconnect cancels any pending reconnect timer, closes the socket with the
normal-closure code 1000, and removes every automation-status entry (every
`getStatus` is absent afterwards, and the token is cleared) — but attached
per-tab debugging sessions are NOT detached: the attachment set is returned
unchanged. -/
theorem c3_amended (s : WsState) (t : Nat) (h : s.ws.isSome = true) :
    (disconnectWebSocket s).reconnectPending = false
    ∧ (disconnectWebSocket s).closedWith = some NORMAL_CLOSURE
    ∧ (disconnectWebSocket s).tabStates = []
    ∧ getStatus t (disconnectWebSocket s) = none
    ∧ (disconnectWebSocket s).currentToken = none
    ∧ (disconnectWebSocket s).attachedDebuggers = s.attachedDebuggers := by
  obtain ⟨r, hr⟩ := Option.isSome_iff_exists.mp h
  simp [disconnectWebSocket, getStatus, mapGet, hr]

/-- Witness for C3 amended, at the spec test input: connect, then seed tabs 1
and 2 with `in_progress` status, disconnect, and both statuses are absent
(shown for both tabs, plus the cancelled timer). -/
theorem c3_witness :
    getStatus 1 (disconnectWebSocket (handleAnimationMessage "in_progress" 2 none
        (handleAnimationMessage "in_progress" 1 none
          (wsOnOpen (connectWebSocket "tok" WsState.initial))))) = none
    ∧ getStatus 2 (disconnectWebSocket (handleAnimationMessage "in_progress" 2 none
        (handleAnimationMessage "in_progress" 1 none
          (wsOnOpen (connectWebSocket "tok" WsState.initial))))) = none
    ∧ (disconnectWebSocket (handleAnimationMessage "in_progress" 2 none
        (handleAnimationMessage "in_progress" 1 none
          (wsOnOpen (connectWebSocket "tok" WsState.initial))))).reconnectPending
        = false :=
  ⟨(c3_amended _ 1 (by rfl)).2.2.2.1, (c3_amended _ 2 (by rfl)).2.2.2.1,
   (c3_amended _ 1 (by rfl)).1⟩

/-- Claim C4: closing a tab that holds an automation-status entry clears the
entry (and the overlay-state entry) — the status store holds nothing for the
tab after the wired tab-close handling returns.  The `closeTab` to
`onTabClosed` wiring is modelled from the spec (see `closeTabWired`). -/
theorem c4_close_clears_status (a : AppState) (x : Nat)
    (h : (getStatus x a.wsc).isSome = true) :
    getStatus x (closeTabWired x a).wsc = none
    ∧ mapGet x (closeTabWired x a).wsc.overlayStates = none := by
  have hcond : (mapGet x a.wsc.tabStates).isSome = true := h
  simp only [closeTabWired, onTabClosed, getStatus, hcond, if_pos]
  exact ⟨mapGet_mapDelete x a.wsc.tabStates, mapGet_mapDelete x a.wsc.overlayStates⟩

/-- Witness for C4: a registry with one tab (id 1) whose status is
`in_progress`; after the wired close, `getStatus 1` is absent. -/
theorem c4_witness :
    getStatus 1 (closeTabWired 1
      { reg := { tabs := [{ id := 1, url := "u", title := none }],
                 currentTabId := 1, nextId := 2, attached := [1] },
        wsc := { ws := some ReadyState.OPEN, currentToken := some "tok",
                 reconnectPending := false,
                 tabStates := [(1, TabState.in_progress)],
                 overlayStates :=
                   [(1, { type := some "purple_glow", visible := true,
                          message := none })],
                 attachedDebuggers := [], socketsCreated := 1,
                 closedWith := none } }).wsc = none :=
  (c4_close_clears_status _ 1 (by rfl)).1

/-- Claim C8, counterexample: `connectWebSocket` in part_018 guards only
against a socket in the OPEN state; called while the existing socket is
still CONNECTING, it constructs a second socket (the ghost construction
counter rises from 1 to 2), so connect is not idempotent in the
`connecting` state for this implementation. -/
theorem c8_counterexample :
    (connectWebSocket "t2"
      { ws := some ReadyState.CONNECTING, currentToken := some "t1",
        reconnectPending := false, tabStates := [], overlayStates := [],
        attachedDebuggers := [], socketsCreated := 1,
        closedWith := none }).socketsCreated = 2 := by
  rfl

/-- Claim C8, amended: `AgentBridge.connect` is a no-op (identical state, no
new socket) while the bridge is `connecting` or `connected`; the part_018
`connectWebSocket` is a no-op only when the existing socket is OPEN — while
a connect is still in progress it creates a second socket. -/
theorem c8_amended (b : AgentBridge) (s : WsState) (tok : String) :
    (b.state = ConnectionState.connecting ∨ b.state = ConnectionState.connected →
      AgentBridge.connect b = b)
    ∧ (s.ws = some ReadyState.OPEN → connectWebSocket tok s = s) := by
  constructor
  · intro h
    unfold AgentBridge.connect
    rw [if_pos h.symm]
  · intro h
    unfold connectWebSocket
    rw [if_pos h]

/-- Witness for C8 amended: a concrete bridge in the `connecting` state and a
concrete client whose socket is OPEN; both connect entries leave the state
unchanged. -/
theorem c8_witness :
    AgentBridge.connect
      { wsSome := true, state := ConnectionState.connecting,
        reconnectTimer := false, reconnectAttempts := 0, autoReconnect := true,
        socketsCreated := 1 }
      = { wsSome := true, state := ConnectionState.connecting,
          reconnectTimer := false, reconnectAttempts := 0, autoReconnect := true,
          socketsCreated := 1 }
    ∧ connectWebSocket "tok"
      { ws := some ReadyState.OPEN, currentToken := some "t1",
        reconnectPending := false, tabStates := [], overlayStates := [],
        attachedDebuggers := [], socketsCreated := 1, closedWith := none }
      = { ws := some ReadyState.OPEN, currentToken := some "t1",
          reconnectPending := false, tabStates := [], overlayStates := [],
          attachedDebuggers := [], socketsCreated := 1, closedWith := none } :=
  ⟨(c8_amended
      { wsSome := true, state := ConnectionState.connecting,
        reconnectTimer := false, reconnectAttempts := 0, autoReconnect := true,
        socketsCreated := 1 }
      { ws := some ReadyState.OPEN, currentToken := some "t1",
        reconnectPending := false, tabStates := [], overlayStates := [],
        attachedDebuggers := [], socketsCreated := 1, closedWith := none }
      "tok").1 (Or.inl rfl),
   (c8_amended
      { wsSome := true, state := ConnectionState.connecting,
        reconnectTimer := false, reconnectAttempts := 0, autoReconnect := true,
        socketsCreated := 1 }
      { ws := some ReadyState.OPEN, currentToken := some "t1",
        reconnectPending := false, tabStates := [], overlayStates := [],
        attachedDebuggers := [], socketsCreated := 1, closedWith := none }
      "tok").2 rfl⟩

theorem closeTab_current_min (s : TabsManager) (x : Nat) (hInv : Inv s)
    (h1 : s.currentTabId = (x : Int))
    (h2 : ∃ tb ∈ s.tabs, tb.id = x)
    (h3 : removeFirstTab x s.tabs ≠ []) :
    (((closeTab x s).tabs.map Tab.id).min?).map (fun n => (n : Int))
      = some (getCurrentTabId (closeTab x s)) := by
  obtain ⟨hPair, hBound, hLen, hLive⟩ := hInv
  have hfound : (s.tabs.any fun t => t.id == x) = true := by
    rw [List.any_eq_true]
    obtain ⟨tb, htb, hid⟩ := h2
    exact ⟨tb, htb, by simp [hid]⟩
  unfold closeTab
  rw [if_pos hfound]
  cases hm : removeFirstTab x s.tabs with
  | nil => exact absurd hm h3
  | cons hd tl =>
    simp only [hm]
    rw [if_pos h1]
    have hPair' : List.Pairwise (fun a b => a.id < b.id) (hd :: tl) := by
      have hp := hPair.sublist (removeFirstTab_sublist x s.tabs)
      rwa [hm] at hp
    have hfound2 : (((hd :: tl) : List Tab).any fun t => t.id == hd.id) = true := by
      simp
    unfold switchTo
    rw [if_pos hfound2]
    have hmin : ∀ b ∈ tl.map Tab.id, hd.id ≤ b := by
      intro b hb
      rw [List.mem_map] at hb
      obtain ⟨t, ht, rfl⟩ := hb
      exact le_of_lt ((List.pairwise_cons.mp hPair').1 t ht)
    simp only [List.map_cons, getCurrentTabId]
    rw [min?_cons_eq_head hd.id (tl.map Tab.id) hmin]
    rfl

/-- Claim C5: over every sequence of registry operations, the ids returned by
successive `createTab` calls are strictly increasing (hence pairwise
distinct: no id is ever reused for the process lifetime — `destroy` does not
reset the allocator either). -/
theorem c5_created_ids_strictly_increasing (ops : List TabOp) :
    List.Pairwise (· < ·) (runLog ops).2 := by
  have hinit : LogInv (TabsManager.initial, []) := by
    refine ⟨List.Pairwise.nil, ?_⟩
    intro i hi
    cases hi
  obtain ⟨hp, _⟩ := logInv_foldl ops (TabsManager.initial, []) hinit
  exact hp

/-- Claim C6: closing the currently-visible tab while other tabs remain
switches to the remaining tab with the lowest id — `getCurrentTabId()`
equals the minimum id among the remaining tabs (the tab list is kept sorted
by construction, and `closeTab` switches to `this.tabs[0]`). -/
theorem c6_close_switches_to_lowest_id (ops : List TabOp) (x : Nat)
    (h1 : (run ops).currentTabId = (x : Int))
    (h2 : ∃ tb ∈ (run ops).tabs, tb.id = x)
    (h3 : removeFirstTab x (run ops).tabs ≠ []) :
    (((closeTab x (run ops)).tabs.map Tab.id).min?).map (fun n => (n : Int))
      = some (getCurrentTabId (closeTab x (run ops))) :=
  closeTab_current_min (run ops) x (inv_run ops) h1 h2 h3

/-- Witness for C6: create tabs 0 and 1, switch to 0, close 0; the current
tab id becomes 1, the minimum remaining id. -/
theorem c6_witness :
    (((closeTab 0 (run [TabOp.newTab "a", TabOp.newTab "b",
        TabOp.switchTab 0])).tabs.map Tab.id).min?).map (fun n => (n : Int))
      = some (getCurrentTabId (closeTab 0 (run [TabOp.newTab "a",
          TabOp.newTab "b", TabOp.switchTab 0]))) :=
  c6_close_switches_to_lowest_id [TabOp.newTab "a", TabOp.newTab "b",
    TabOp.switchTab 0] 0 (by decide) (by decide) (by decide)

/-- Claim C7, counterexample: under the first-revision `createTab` (which
adds every new view to the window immediately), two consecutive `createTab`
calls leave both views attached at once, so "at most one tab's view is
attached/visible in every reachable state" is false for that revision —
exactly the overlap the second revision's comment says it prevents. -/
theorem c7_counterexample :
    (run1 [TabOp.newTab "a", TabOp.newTab "b"]).attached = [0, 1]
    ∧ ¬((run1 [TabOp.newTab "a", TabOp.newTab "b"]).attached.length ≤ 1) := by
  constructor
  · rfl
  · decide

/-- Claim C7, amended: under the second TabsManager revision (`createTab`
defers attachment; `switchTo` detaches every view before attaching one), at
most one view is attached in every reachable registry state, and after
`createTab` followed by `switchTo` of the returned id, `getCurrentTabId()`
equals that id and exactly that tab's view is the one attached. -/
theorem c7_amended (ops : List TabOp) (u : String) :
    (run ops).attached.length ≤ 1
    ∧ (switchTo (createTab u (run ops)).2 (createTab u (run ops)).1).currentTabId
        = ((createTab u (run ops)).2 : Int)
    ∧ (switchTo (createTab u (run ops)).2 (createTab u (run ops)).1).attached
        = [(createTab u (run ops)).2] := by
  obtain ⟨hPair, hBound, hLen, hLive⟩ := inv_run ops
  obtain ⟨hc, ha⟩ :=
    switchTo_after_createTab (run ops) u ⟨hPair, hBound, hLen, hLive⟩
  exact ⟨hLen, hc, ha⟩

/-- Claim C9, counterexample: a `newTab` command whose params carry the empty
string as url is rejected — `!params?.url` is true for the falsy empty
string, so the handler sends a MissingParameter error and creates no tab,
contradicting the claim for that instance of "params contain a url". -/
theorem c9_counterexample :
    executeTabCommand "a1" "newTab" { url := some "" } TabsManager.initial
      = (TabsManager.initial,
         some (Response.err "a1" "Missing required parameter: url")) := by
  rfl

/-- Claim C9, amended: for every `newTab` command whose params contain a
non-empty url, the tab is created and the response is
`{id, result: {tabId}}` with the fresh id; unless `focus` is literally
`false` the new tab is switched to (auto-focus defaults to true), making it
the current tab with exactly its view attached; with `focus = false` the
registry is left exactly as `createTab` leaves it — not made visible. -/
theorem c9_amended (ops : List TabOp) (id u : String) (focus : Option Bool)
    (hu : u ≠ "") :
    (executeTabCommand id "newTab" { url := some u, focus := focus } (run ops)).2
      = some (Response.ok id (ResultData.newTabResult (run ops).nextId))
    ∧ (focus ≠ some false →
        (executeTabCommand id "newTab" { url := some u, focus := focus }
            (run ops)).1.currentTabId = ((run ops).nextId : Int)
        ∧ (executeTabCommand id "newTab" { url := some u, focus := focus }
            (run ops)).1.attached = [(run ops).nextId])
    ∧ (focus = some false →
        (executeTabCommand id "newTab" { url := some u, focus := focus }
            (run ops)).1 = (createTab u (run ops)).1) := by
  obtain ⟨hc, ha⟩ := switchTo_after_createTab (run ops) u (inv_run ops)
  refine ⟨?_, ?_, ?_⟩
  · simp [executeTabCommand, hu]
    rfl
  · intro hf
    have hcmd : (executeTabCommand id "newTab" { url := some u, focus := focus }
        (run ops)).1 = switchTo (createTab u (run ops)).2 (createTab u (run ops)).1 := by
      simp [executeTabCommand, hu, hf]
    rw [hcmd]
    exact ⟨hc, ha⟩
  · intro hf
    simp [executeTabCommand, hu, hf]

/-- Witness for C9 amended: `newTab` with url "https://example.com" and no
focus field on a fresh registry returns tab id 0 and makes tab 0 current. -/
theorem c9_witness :
    (executeTabCommand "a1" "newTab"
        { url := some "https://example.com", focus := none } (run [])).2
      = some (Response.ok "a1" (ResultData.newTabResult 0))
    ∧ (executeTabCommand "a1" "newTab"
        { url := some "https://example.com", focus := none } (run [])).1.currentTabId
      = (0 : Int) := by
  have h := c9_amended [] "a1" "https://example.com" none (by decide)
  exact ⟨h.1, (h.2.1 (by decide)).1⟩

/-- Claim C10: closing the currently-visible tab when it is the last one
leaves `getCurrentTabId()` equal to the id of the now-destroyed tab — the
auto-switch only runs when tabs remain, and nothing resets the field — while
`destroy()` does reset it to the no-tab sentinel -1. -/
theorem c10_close_last_keeps_current (s : TabsManager) (x : Nat)
    (h1 : s.currentTabId = (x : Int))
    (h2 : ∃ tb ∈ s.tabs, tb.id = x)
    (h3 : removeFirstTab x s.tabs = []) :
    getCurrentTabId (closeTab x s) = (x : Int)
    ∧ (closeTab x s).tabs = []
    ∧ getCurrentTabId (destroy (closeTab x s)) = -1 := by
  have hfound : (s.tabs.any fun t => t.id == x) = true := by
    rw [List.any_eq_true]
    obtain ⟨tb, htb, hid⟩ := h2
    exact ⟨tb, htb, by simp [hid]⟩
  unfold closeTab
  rw [if_pos hfound]
  simp only [h3]
  exact ⟨h1, trivial, rfl⟩

/-- Witness for C10: one tab (id 0), switched to, then closed;
`getCurrentTabId()` still returns 0 with no tabs left, and `destroy` resets
it to -1. -/
theorem c10_witness :
    getCurrentTabId (closeTab 0 (run [TabOp.newTab "a", TabOp.switchTab 0]))
      = (0 : Int)
    ∧ (closeTab 0 (run [TabOp.newTab "a", TabOp.switchTab 0])).tabs = []
    ∧ getCurrentTabId (destroy (closeTab 0
        (run [TabOp.newTab "a", TabOp.switchTab 0]))) = -1 :=
  c10_close_last_keeps_current (run [TabOp.newTab "a", TabOp.switchTab 0]) 0
    (by decide) (by decide) (by decide)

end Finbro
